import Mathlib

/-!
Verification of the preview generation and caching pipeline of
src/http/preview.go against its specification.

The Go handlers are embedded shallowly: the injected collaborators
(transform service, file cache, filesystem, error-to-status mapping) are
represented by an environment `Env` recording the outcome each collaborator
would return on this request, and every handler is a pure function that
returns the HTTP result together with the ordered list of collaborator
invocations (`Event`) it performs. Helpers that live outside
src/http/preview.go (checkEtag, rawFileHandler, the generated
ParsePreviewSize, the img package enums) are modelled from the spec and
marked as such.
-/

/-- Formats of the external `img` package.
Modelled from the spec: the transform collaborator detects a format from the
extension; the spec names an animated-GIF format and a JPEG forced output,
`png` stands for any other supported format. -/
inductive Format
  | jpeg
  | png
  | gif
deriving DecidableEq

/-- Resize modes of the external `img` package: fit preserves aspect ratio,
fill crops to fill the target box. -/
inductive ResizeMode
  | fit
  | fill
deriving DecidableEq

/-- Quality tiers of the external `img` package named by the spec. -/
inductive Quality
  | low
  | medium
deriving DecidableEq

/-- Options passed to the Resize operation of the transform collaborator. -/
inductive ImgOption
  | withMode (m : ResizeMode)
  | withQuality (q : Quality)
  | withFormat (f : Format)
deriving DecidableEq

/-- Error values. `unsupportedFormat` embeds img.ErrUnsupportedFormat;
`other` stands for any error value distinct from it. -/
inductive Err
  | unsupportedFormat
  | other (code : Nat)
deriving DecidableEq

/-- PreviewSize, generated by go-enum from ENUM(thumb, big): thumb = 0,
big = 1. -/
inductive PreviewSize
  | thumb
  | big
deriving DecidableEq

/-- The numeric tag of a PreviewSize, as printed by the `%x` verb. -/
def PreviewSize.toNat : PreviewSize → Nat
  | .thumb => 0
  | .big => 1

/-- `%x` of a non-negative integer: minimal lowercase hex digits. -/
def natHex (n : Nat) : String := String.mk (Nat.toDigits 16 n)

/-- `%x` of a Go int64: minimal lowercase hex digits, minus sign when
negative. -/
def intHex (i : Int) : String :=
  if i < 0 then "-" ++ natHex i.natAbs else natHex i.toNat

/-- One byte as exactly two lowercase hex digits. -/
def byteHex (b : Nat) : List Char := [Nat.digitChar (b / 16 % 16), Nat.digitChar (b % 16)]

/-- `%x` of a Go string: each byte of the string as two lowercase hex
digits. Go strings are byte sequences; paths are taken as UTF-8. -/
def stringHex (s : String) : String :=
  String.mk ((s.data.flatMap String.utf8EncodeChar).flatMap (fun b => byteHex b.toNat))

/-- previewCacheKey: fmt.Sprintf with three `%x` verbs applied to the path,
the modification time in Unix seconds and the preview size. -/
def previewCacheKey (fPath : String) (fTime : Int) (previewSize : PreviewSize) : String :=
  stringHex fPath ++ intHex fTime ++ natHex previewSize.toNat

/-- The fields of files.FileInfo that the pipeline reads. `content` is the
byte content behind the open handle and behind raw serving. -/
structure FileInfo where
  path : String
  modTimeUnix : Int
  size : Int
  extension : String
  fileType : String
  content : List Nat
deriving DecidableEq

/-- The conditional-request validators held by the client, when present:
a (modification time, size) pair. -/
structure Request where
  validators : Option (Int × Int)
deriving DecidableEq

/-- Modelled from the spec: checkEtag is outside src/http/preview.go. The
FreshnessChecker compares the descriptor fields (modification time, size)
against the conditional validators of the request and reports freshness. -/
def checkEtag (r : Request) (modTime : Int) (size : Int) : Bool :=
  r.validators == some (modTime, size)

/-- Observable collaborator invocations, listed in program order. -/
inductive Event
  | formatFromExtension (ext : String)
  | etagCheck
  | cacheLoad (key : String)
  | fsOpen (path : String)
  | fsClose
  | resize (width : Nat) (height : Nat) (options : List ImgOption)
  | spawnStore (key : String) (value : List Nat)
  | writeBody (value : List Nat)
  | rawServe (value : List Nat)
  | parseSize (token : String)
  | resolveFile (path : String)
  | setDisposition
deriving DecidableEq

/-- Per-request outcomes of the injected collaborators: what
FormatFromExtension, fileCache.Load, Fs.Open, Resize, the detached Store
and file resolution would return, plus the external error-to-status
mapping. -/
structure Env where
  formatResult : Format × Option Err
  loadResult : Except Err (Option (List Nat))
  openResult : Option Err
  resizeResult : Except Err (List Nat)
  storeResult : Option Err
  errToStatus : Err → Nat
  resolveResult : Except Err FileInfo

/-- The observable outcome of one handler run: the returned (status, error)
pair, the response body bytes written, and the invocation trace. -/
structure HResult where
  status : Nat
  error : Option Err
  body : List Nat
  trace : List Event
deriving DecidableEq

/-- Modelled from the spec: rawFileHandler is outside src/http/preview.go.
Raw passthrough serves the original bytes unchanged. -/
def rawFileHandler (file : FileInfo) : HResult :=
  { status := 0, error := none, body := file.content,
    trace := [Event.rawServe file.content] }

/-- createPreview: open the source file (deferring close to every exit
path), choose the per-size parameters if the governing flag is enabled,
run Resize into a buffer, and launch the detached Store of the buffer
under the preview cache key before returning the buffer. -/
def createPreview (env : Env) (file : FileInfo) (previewSize : PreviewSize)
    (enableThumbnails : Bool) (resizePreview : Bool) :
    Except Err (List Nat) × List Event :=
  match env.openResult with
  | some e => (Except.error e, [Event.fsOpen file.path])
  | none =>
    if previewSize == PreviewSize.big && resizePreview then
      match env.resizeResult with
      | Except.error e =>
          (Except.error e,
           [Event.fsOpen file.path,
            Event.resize 1080 1080 [ImgOption.withMode ResizeMode.fit, ImgOption.withQuality Quality.medium],
            Event.fsClose])
      | Except.ok buf =>
          let cacheKey := previewCacheKey file.path file.modTimeUnix previewSize
          (Except.ok buf,
           [Event.fsOpen file.path,
            Event.resize 1080 1080 [ImgOption.withMode ResizeMode.fit, ImgOption.withQuality Quality.medium],
            Event.spawnStore cacheKey buf,
            Event.fsClose])
    else if previewSize == PreviewSize.thumb && enableThumbnails then
      match env.resizeResult with
      | Except.error e =>
          (Except.error e,
           [Event.fsOpen file.path,
            Event.resize 128 128 [ImgOption.withMode ResizeMode.fill, ImgOption.withQuality Quality.low, ImgOption.withFormat Format.jpeg],
            Event.fsClose])
      | Except.ok buf =>
          let cacheKey := previewCacheKey file.path file.modTimeUnix previewSize
          (Except.ok buf,
           [Event.fsOpen file.path,
            Event.resize 128 128 [ImgOption.withMode ResizeMode.fill, ImgOption.withQuality Quality.low, ImgOption.withFormat Format.jpeg],
            Event.spawnStore cacheKey buf,
            Event.fsClose])
    else
      (Except.error Err.unsupportedFormat, [Event.fsOpen file.path, Event.fsClose])

/-- handleImagePreview: format detection, then unsupported/GIF raw
passthrough, then hard failure on other format errors, then the freshness
check, then the cache lookup, then the render-and-respond path. -/
def handleImagePreview (env : Env) (req : Request) (file : FileInfo)
    (previewSize : PreviewSize) (enableThumbnails : Bool) (resizePreview : Bool) :
    HResult :=
  let format := env.formatResult.1
  let ferr := env.formatResult.2
  let t0 := [Event.formatFromExtension file.extension]
  if ferr == some Err.unsupportedFormat || format == Format.gif then
    let r := rawFileHandler file
    { r with trace := t0 ++ r.trace }
  else
    match ferr with
    | some e => { status := env.errToStatus e, error := some e, body := [], trace := t0 }
    | none =>
      let isFresh := checkEtag req file.modTimeUnix file.size
      let t1 := t0 ++ [Event.etagCheck]
      if isFresh then
        { status := 304, error := none, body := [], trace := t1 }
      else
        let cacheKey := previewCacheKey file.path file.modTimeUnix previewSize
        let t2 := t1 ++ [Event.cacheLoad cacheKey]
        match env.loadResult with
        | Except.error e =>
            { status := env.errToStatus e, error := some e, body := [], trace := t2 }
        | Except.ok (some cachedFile) =>
            { status := 0, error := none, body := cachedFile,
              trace := t2 ++ [Event.writeBody cachedFile] }
        | Except.ok none =>
          match createPreview env file previewSize enableThumbnails resizePreview with
          | (Except.error e, tc) =>
              { status := env.errToStatus e, error := some e, body := [], trace := t2 ++ tc }
          | (Except.ok resizedImage, tc) =>
              { status := 0, error := none, body := resizedImage,
                trace := t2 ++ tc ++ [Event.writeBody resizedImage] }

/-- The only user field the handler reads: the download permission. -/
structure User where
  permDownload : Bool
deriving DecidableEq

/-- Modelled from the spec: the go-enum generated parser is outside
src/http/preview.go. The size token must decode to thumb or big, anything
else is a client error. -/
def ParsePreviewSize (s : String) : Except Err PreviewSize :=
  if s == "thumb" then Except.ok PreviewSize.thumb
  else if s == "big" then Except.ok PreviewSize.big
  else Except.error (Err.other 1)

/-- previewHandler: permission gate, size parse, file resolution, content
disposition, and dispatch by file type (only image proceeds). -/
def previewHandler (env : Env) (u : User) (req : Request)
    (sizeVar : String) (pathVar : String)
    (enableThumbnails : Bool) (resizePreview : Bool) : HResult :=
  if !u.permDownload then
    { status := 202, error := none, body := [], trace := [] }
  else
    match ParsePreviewSize sizeVar with
    | Except.error e =>
        { status := 400, error := some e, body := [], trace := [Event.parseSize sizeVar] }
    | Except.ok previewSize =>
      match env.resolveResult with
      | Except.error e =>
          { status := env.errToStatus e, error := some e, body := [],
            trace := [Event.parseSize sizeVar, Event.resolveFile ("/" ++ pathVar)] }
      | Except.ok file =>
        let t := [Event.parseSize sizeVar, Event.resolveFile ("/" ++ pathVar), Event.setDisposition]
        if file.fileType == "image" then
          let r := handleImagePreview env req file previewSize enableThumbnails resizePreview
          { r with trace := t ++ r.trace }
        else
          { status := 501, error := some (Err.other 2), body := [], trace := t }

/-- A concrete image file used as a test fixture. -/
def file0 : FileInfo :=
  { path := "/a.png", modTimeUnix := 100, size := 4, extension := ".png",
    fileType := "image", content := [1, 2, 3, 4] }

/-- A request whose validators match file0. -/
def reqFresh : Request := { validators := some (100, 4) }

/-- A request without validators. -/
def reqStale : Request := { validators := none }

/-- A baseline environment: supported format, cache miss, open and resize
succeed. -/
def env0 : Env :=
  { formatResult := (Format.jpeg, none)
    loadResult := Except.ok none
    openResult := none
    resizeResult := Except.ok [7, 8]
    storeResult := none
    errToStatus := fun _ => 500
    resolveResult := Except.ok file0 }

/-- env0 with the detected format being GIF. -/
def envGif : Env := { env0 with formatResult := (Format.gif, none) }

/-- env0 with a failing file open. -/
def env4 : Env := { env0 with openResult := some (Err.other 7) }

/-- Claim C1, counterexample: on a request whose validators match the file,
the handler does answer 304, but the transform collaborator has already
been invoked — FormatFromExtension appears in the trace, refuting the
claim that neither collaborator is invoked. -/
theorem c1_counterexample :
    checkEtag reqFresh file0.modTimeUnix file0.size = true ∧
    (handleImagePreview env0 reqFresh file0 PreviewSize.thumb true true).status = 304 ∧
    Event.formatFromExtension ".png" ∈
      (handleImagePreview env0 reqFresh file0 PreviewSize.thumb true true).trace := by
  decide

/-- Claim C1, amended: when the validators match and format detection
succeeds with a non-GIF format, the handler answers 304 with an empty body
and its full trace is format detection followed by the freshness check —
so no cache Load, no Store, no Resize and no file open occur, but
FormatFromExtension is invoked before the check. -/
theorem c1_amended (env : Env) (req : Request) (file : FileInfo)
    (ps : PreviewSize) (et rp : Bool) (f : Format)
    (hf : env.formatResult = (f, none)) (hg : f ≠ Format.gif)
    (hfresh : checkEtag req file.modTimeUnix file.size = true) :
    handleImagePreview env req file ps et rp =
      { status := 304, error := none, body := [],
        trace := [Event.formatFromExtension file.extension, Event.etagCheck] } := by
  simp [handleImagePreview, hf, hg, hfresh]

/-- Claim C1 witness: the amended theorem applied to the concrete fresh
request. -/
theorem c1_amended_witness :
    handleImagePreview env0 reqFresh file0 PreviewSize.thumb true true =
      { status := 304, error := none, body := [],
        trace := [Event.formatFromExtension ".png", Event.etagCheck] } :=
  c1_amended env0 reqFresh file0 PreviewSize.thumb true true Format.jpeg rfl
    (by decide) (by decide)

/-- Claim C2: on a cache hit the handler returns status 0 with no error,
the body is exactly the bytes the cache returned, and the full trace is
format detection, freshness check and the cache Load — no Resize, no file
open, no Store submission. -/
theorem c2_theorem (env : Env) (req : Request) (file : FileInfo)
    (ps : PreviewSize) (et rp : Bool) (f : Format) (cached : List Nat)
    (hf : env.formatResult = (f, none)) (hg : f ≠ Format.gif)
    (hfresh : checkEtag req file.modTimeUnix file.size = false)
    (hload : env.loadResult = Except.ok (some cached)) :
    handleImagePreview env req file ps et rp =
      { status := 0, error := none, body := cached,
        trace := [Event.formatFromExtension file.extension, Event.etagCheck,
                  Event.cacheLoad (previewCacheKey file.path file.modTimeUnix ps),
                  Event.writeBody cached] } := by
  simp [handleImagePreview, hf, hg, hfresh, hload]

/-- Claim C2 witness: a concrete hit returning the cached bytes [9, 9]. -/
theorem c2_witness :
    handleImagePreview { env0 with loadResult := Except.ok (some [9, 9]) }
        reqStale file0 PreviewSize.thumb true true =
      { status := 0, error := none, body := [9, 9],
        trace := [Event.formatFromExtension ".png", Event.etagCheck,
                  Event.cacheLoad (previewCacheKey "/a.png" 100 PreviewSize.thumb),
                  Event.writeBody [9, 9]] } :=
  c2_theorem _ reqStale file0 PreviewSize.thumb true true Format.jpeg [9, 9] rfl
    (by decide) (by decide) rfl

/-- Claim C3: (1) when the extension maps to the unsupported-format error
or the detected format is GIF, the handler serves the original bytes
unchanged and its trace holds only format detection and the raw serve — no
cache Load or Store and no Resize; (2) any other error from
FormatFromExtension is a hard failure mapped through the error-to-status
collaborator with nothing else invoked; (3) every response body written by
the image pipeline other than a raw serve is preceded by a cache Load, so
the two passthrough cases are the only ones that bypass the cache. -/
theorem c3_theorem (env : Env) (req : Request) (file : FileInfo)
    (ps : PreviewSize) (et rp : Bool) :
    ((env.formatResult.2 = some Err.unsupportedFormat ∨ env.formatResult.1 = Format.gif) →
      handleImagePreview env req file ps et rp =
        { status := 0, error := none, body := file.content,
          trace := [Event.formatFromExtension file.extension, Event.rawServe file.content] }) ∧
    (∀ e, env.formatResult.2 = some e → e ≠ Err.unsupportedFormat →
      env.formatResult.1 ≠ Format.gif →
      handleImagePreview env req file ps et rp =
        { status := env.errToStatus e, error := some e, body := [],
          trace := [Event.formatFromExtension file.extension] }) ∧
    (∀ b, Event.writeBody b ∈ (handleImagePreview env req file ps et rp).trace →
      Event.cacheLoad (previewCacheKey file.path file.modTimeUnix ps) ∈
        (handleImagePreview env req file ps et rp).trace) := by
  refine ⟨?_, ?_, ?_⟩
  · rintro (h | h)
    · simp [handleImagePreview, rawFileHandler, h]
    · simp [handleImagePreview, rawFileHandler, h]
  · intro e he hne hng
    simp [handleImagePreview, he, hne, hng]
  · intro b hb
    by_cases h1 : (env.formatResult.2 == some Err.unsupportedFormat
        || env.formatResult.1 == Format.gif) = true
    · simp [handleImagePreview, rawFileHandler, h1] at hb
    · simp only [Bool.or_eq_true, beq_iff_eq, not_or] at h1
      obtain ⟨h1a, h1b⟩ := h1
      cases hferr : env.formatResult.2 with
      | some e =>
        rw [hferr] at h1a
        simp only [ne_eq, Option.some.injEq] at h1a
        simp [handleImagePreview, rawFileHandler, hferr, h1a, h1b] at hb
      | none =>
        by_cases hfr : checkEtag req file.modTimeUnix file.size = true
        · simp [handleImagePreview, rawFileHandler, hferr, h1b, hfr] at hb
        · cases hload : env.loadResult with
          | error e =>
            simp [handleImagePreview, rawFileHandler, hferr, h1b, hfr, hload] at hb
          | ok o =>
            cases o with
            | some c =>
              simp [handleImagePreview, hferr, h1b, hfr, hload]
            | none =>
              rcases hcp : createPreview env file ps et rp with ⟨r, tc⟩
              cases r with
              | error e =>
                simp [handleImagePreview, hferr, h1b, hfr, hload, hcp]
              | ok buf =>
                simp [handleImagePreview, hferr, h1b, hfr, hload, hcp]

/-- Claim C3 witness: a GIF file is served raw with no cache or resize
events. -/
theorem c3_witness :
    handleImagePreview envGif reqStale file0 PreviewSize.thumb true true =
      { status := 0, error := none, body := [1, 2, 3, 4],
        trace := [Event.formatFromExtension ".png", Event.rawServe [1, 2, 3, 4]] } :=
  (c3_theorem envGif reqStale file0 PreviewSize.thumb true true).1 (Or.inr rfl)

/-- Claim C4, counterexample: requesting Big with resize disabled while the
file open fails makes createPreview fail with the open error, not with the
unsupported-format error the claim requires for every disabled-flag
request. -/
theorem c4_counterexample :
    (createPreview env4 file0 PreviewSize.big false false).1 = Except.error (Err.other 7) ∧
    Err.other 7 ≠ Err.unsupportedFormat :=
  ⟨rfl, by decide⟩

/-- Claim C4, amended: with the governing flag of the requested size
disabled, createPreview never invokes Resize and always fails with some
error; when the source file opens successfully that error is the
unsupported-format error (with the reader closed); and raw bytes are only
ever served by the format-detection passthrough, never as a fallback of a
disabled flag. -/
theorem c4_amended (env : Env) (file : FileInfo) (ps : PreviewSize) (et rp : Bool)
    (hflag : (ps = PreviewSize.big ∧ rp = false) ∨ (ps = PreviewSize.thumb ∧ et = false)) :
    (∀ w h o, Event.resize w h o ∉ (createPreview env file ps et rp).2) ∧
    (∃ e, (createPreview env file ps et rp).1 = Except.error e) ∧
    (env.openResult = none →
      createPreview env file ps et rp =
        (Except.error Err.unsupportedFormat, [Event.fsOpen file.path, Event.fsClose])) ∧
    (∀ req b, Event.rawServe b ∈ (handleImagePreview env req file ps et rp).trace →
      env.formatResult.2 = some Err.unsupportedFormat ∨ env.formatResult.1 = Format.gif) := by
  have hcp : createPreview env file ps et rp =
      match env.openResult with
      | some e => (Except.error e, [Event.fsOpen file.path])
      | none => (Except.error Err.unsupportedFormat, [Event.fsOpen file.path, Event.fsClose]) := by
    rcases hflag with ⟨hps, hrp⟩ | ⟨hps, het⟩
    · subst hps; subst hrp
      cases hopen : env.openResult <;> simp [createPreview, hopen]
    · subst hps; subst het
      cases hopen : env.openResult <;> simp [createPreview, hopen]
  refine ⟨?_, ?_, ?_, ?_⟩
  · intro w h o hm
    rw [hcp] at hm
    cases hopen : env.openResult <;> rw [hopen] at hm <;> simp at hm
  · rw [hcp]
    cases hopen : env.openResult <;> exact ⟨_, rfl⟩
  · intro hopen
    rw [hcp, hopen]
  · intro req b hm
    by_cases h1 : (env.formatResult.2 == some Err.unsupportedFormat
        || env.formatResult.1 == Format.gif) = true
    · simp only [Bool.or_eq_true, beq_iff_eq] at h1
      exact h1
    · exfalso
      simp only [Bool.or_eq_true, beq_iff_eq, not_or] at h1
      obtain ⟨h1a, h1b⟩ := h1
      cases hferr : env.formatResult.2 with
      | some e =>
        rw [hferr] at h1a
        simp only [ne_eq, Option.some.injEq] at h1a
        simp [handleImagePreview, rawFileHandler, hferr, h1a, h1b] at hm
      | none =>
        by_cases hfr : checkEtag req file.modTimeUnix file.size = true
        · simp [handleImagePreview, hferr, h1b, hfr] at hm
        · cases hload : env.loadResult with
          | error e => simp [handleImagePreview, hferr, h1b, hfr, hload] at hm
          | ok o =>
            cases o with
            | some c => simp [handleImagePreview, hferr, h1b, hfr, hload] at hm
            | none =>
              cases hopen : env.openResult with
              | some e =>
                have hcp2 : createPreview env file ps et rp =
                    (Except.error e, [Event.fsOpen file.path]) := by rw [hcp, hopen]
                simp [handleImagePreview, hferr, h1b, hfr, hload, hcp2] at hm
              | none =>
                have hcp2 : createPreview env file ps et rp =
                    (Except.error Err.unsupportedFormat,
                     [Event.fsOpen file.path, Event.fsClose]) := by rw [hcp, hopen]
                simp [handleImagePreview, hferr, h1b, hfr, hload, hcp2] at hm

/-- Claim C4 witness: thumbnails disabled with a successful open fails with
the unsupported-format error. -/
theorem c4_amended_witness :
    createPreview env0 file0 PreviewSize.thumb false true =
      (Except.error Err.unsupportedFormat, [Event.fsOpen "/a.png", Event.fsClose]) :=
  (c4_amended env0 file0 PreviewSize.thumb false true (Or.inr ⟨rfl, rfl⟩)).2.2.1 rfl

/-- Claim C5, counterexample: on a concrete miss with a successful render,
the detached Store submission appears in the trace strictly before the
response bytes are written, refuting the claimed
Render then Respond then DetachedStore order. -/
theorem c5_counterexample :
    (handleImagePreview env0 reqStale file0 PreviewSize.thumb true true).trace =
      [Event.formatFromExtension ".png", Event.etagCheck,
       Event.cacheLoad (previewCacheKey "/a.png" 100 PreviewSize.thumb),
       Event.fsOpen "/a.png",
       Event.resize 128 128 [ImgOption.withMode ResizeMode.fill,
         ImgOption.withQuality Quality.low, ImgOption.withFormat Format.jpeg],
       Event.spawnStore (previewCacheKey "/a.png" 100 PreviewSize.thumb) [7, 8],
       Event.fsClose,
       Event.writeBody [7, 8]] ∧
    (handleImagePreview env0 reqStale file0 PreviewSize.thumb true true).trace.indexOf
        (Event.spawnStore (previewCacheKey "/a.png" 100 PreviewSize.thumb) [7, 8]) <
      (handleImagePreview env0 reqStale file0 PreviewSize.thumb true true).trace.indexOf
        (Event.writeBody [7, 8]) := by
  decide

/-- Claim C5, amended: on a miss with a successful render the handler
submits (key, bytes) to the detached Store exactly once, at render
completion and before writing the rendered bytes as the response body, and
the outcome of the detached Store never influences the returned status,
error, body or trace of the handler. -/
theorem c5_amended (env : Env) (req : Request) (file : FileInfo)
    (ps : PreviewSize) (et rp : Bool) (f : Format) (buf : List Nat)
    (hf : env.formatResult = (f, none)) (hg : f ≠ Format.gif)
    (hfresh : checkEtag req file.modTimeUnix file.size = false)
    (hload : env.loadResult = Except.ok none)
    (hopen : env.openResult = none)
    (hresize : env.resizeResult = Except.ok buf)
    (hflag : (ps = PreviewSize.big ∧ rp = true) ∨ (ps = PreviewSize.thumb ∧ et = true)) :
    (∃ w h o,
      handleImagePreview env req file ps et rp =
        { status := 0, error := none, body := buf,
          trace := [Event.formatFromExtension file.extension, Event.etagCheck,
                    Event.cacheLoad (previewCacheKey file.path file.modTimeUnix ps),
                    Event.fsOpen file.path, Event.resize w h o,
                    Event.spawnStore (previewCacheKey file.path file.modTimeUnix ps) buf,
                    Event.fsClose, Event.writeBody buf] }) ∧
    (∀ s, handleImagePreview { env with storeResult := s } req file ps et rp =
      handleImagePreview env req file ps et rp) := by
  constructor
  · rcases hflag with ⟨hps, hrp⟩ | ⟨hps, het⟩
    · subst hps; subst hrp
      have hcp : createPreview env file PreviewSize.big et true =
          (Except.ok buf,
           [Event.fsOpen file.path,
            Event.resize 1080 1080 [ImgOption.withMode ResizeMode.fit,
              ImgOption.withQuality Quality.medium],
            Event.spawnStore (previewCacheKey file.path file.modTimeUnix PreviewSize.big) buf,
            Event.fsClose]) := by
        simp [createPreview, hopen, hresize]
      exact ⟨1080, 1080, [ImgOption.withMode ResizeMode.fit, ImgOption.withQuality Quality.medium],
        by simp [handleImagePreview, hf, hg, hfresh, hload, hcp]⟩
    · subst hps; subst het
      have hcp : createPreview env file PreviewSize.thumb true rp =
          (Except.ok buf,
           [Event.fsOpen file.path,
            Event.resize 128 128 [ImgOption.withMode ResizeMode.fill,
              ImgOption.withQuality Quality.low, ImgOption.withFormat Format.jpeg],
            Event.spawnStore (previewCacheKey file.path file.modTimeUnix PreviewSize.thumb) buf,
            Event.fsClose]) := by
        cases hbig : (PreviewSize.thumb == PreviewSize.big && rp) <;>
          simp_all [createPreview, hopen, hresize]
      exact ⟨128, 128, [ImgOption.withMode ResizeMode.fill, ImgOption.withQuality Quality.low,
          ImgOption.withFormat Format.jpeg],
        by simp [handleImagePreview, hf, hg, hfresh, hload, hcp]⟩
  · intro s
    cases env
    rfl

/-- Claim C5 witness: changing the Store outcome to a failure leaves the
concrete handler run unchanged. -/
theorem c5_amended_witness :
    handleImagePreview { env0 with storeResult := some (Err.other 3) }
        reqStale file0 PreviewSize.thumb true true =
      handleImagePreview env0 reqStale file0 PreviewSize.thumb true true :=
  (c5_amended env0 reqStale file0 PreviewSize.thumb true true Format.jpeg [7, 8] rfl
    (by decide) (by decide) rfl rfl rfl (Or.inr ⟨rfl, rfl⟩)).2 (some (Err.other 3))

/-- Claim C6: a user without the download permission gets status 202
(accepted, not forbidden) with a nil error and an empty trace — no size
parsing, no file resolution, no collaborator call of any kind. -/
theorem c6_theorem (env : Env) (u : User) (req : Request)
    (sizeVar pathVar : String) (et rp : Bool)
    (hperm : u.permDownload = false) :
    previewHandler env u req sizeVar pathVar et rp =
      { status := 202, error := none, body := [], trace := [] } := by
  simp [previewHandler, hperm]

/-- Claim C6 witness: the permission gate on a concrete request. -/
theorem c6_witness :
    previewHandler env0 { permDownload := false } reqStale "thumb" "a.png" true true =
      { status := 202, error := none, body := [], trace := [] } :=
  c6_theorem env0 { permDownload := false } reqStale "thumb" "a.png" true true rfl

/-- Claim C7: every Resize invocation of createPreview carries exactly the
fixed per-size parameters — Big: 1080 by 1080, fit mode, medium quality, no
forced format; Thumb: 128 by 128, fill mode, low quality, JPEG forced —
and with the flag enabled and a successful open that invocation occurs. -/
theorem c7_theorem (env : Env) (file : FileInfo) (ps : PreviewSize) (et rp : Bool) :
    (∀ w h o, Event.resize w h o ∈ (createPreview env file ps et rp).2 →
      (ps = PreviewSize.big ∧ rp = true ∧ w = 1080 ∧ h = 1080 ∧
        o = [ImgOption.withMode ResizeMode.fit, ImgOption.withQuality Quality.medium]) ∨
      (ps = PreviewSize.thumb ∧ et = true ∧ w = 128 ∧ h = 128 ∧
        o = [ImgOption.withMode ResizeMode.fill, ImgOption.withQuality Quality.low,
             ImgOption.withFormat Format.jpeg])) ∧
    (env.openResult = none →
      (ps = PreviewSize.big → rp = true →
        Event.resize 1080 1080 [ImgOption.withMode ResizeMode.fit,
          ImgOption.withQuality Quality.medium] ∈ (createPreview env file ps et rp).2) ∧
      (ps = PreviewSize.thumb → et = true →
        Event.resize 128 128 [ImgOption.withMode ResizeMode.fill,
          ImgOption.withQuality Quality.low, ImgOption.withFormat Format.jpeg] ∈
          (createPreview env file ps et rp).2)) := by
  constructor
  · intro w h o hm
    cases hopen : env.openResult with
    | some e =>
      simp [createPreview, hopen] at hm
    | none =>
      by_cases hbig : (ps == PreviewSize.big && rp) = true
      · simp only [Bool.and_eq_true, beq_iff_eq] at hbig
        left
        refine ⟨hbig.1, hbig.2, ?_⟩
        cases hres : env.resizeResult <;>
          simp [createPreview, hopen, hbig.1, hbig.2, hres] at hm <;>
          exact hm
      · by_cases hthumb : (ps == PreviewSize.thumb && et) = true
        · simp only [Bool.and_eq_true, beq_iff_eq] at hthumb
          right
          refine ⟨hthumb.1, hthumb.2, ?_⟩
          rw [Bool.not_eq_true] at hbig
          cases hres : env.resizeResult <;>
            simp [createPreview, hopen, hbig, hthumb.1, hthumb.2, hres] at hm <;>
            exact hm
        · rw [Bool.not_eq_true] at hbig hthumb
          simp [createPreview, hopen, hbig, hthumb] at hm
  · intro hopen
    constructor
    · intro hps hrp
      subst hps; subst hrp
      cases hres : env.resizeResult <;> simp [createPreview, hopen, hres]
    · intro hps het
      subst hps; subst het
      cases hres : env.resizeResult <;>
        cases hrp : rp <;> simp [createPreview, hopen, hres]

/-- Claim C7 witness: a concrete thumb render invokes Resize with the fixed
thumb parameters. -/
theorem c7_witness :
    Event.resize 128 128 [ImgOption.withMode ResizeMode.fill,
      ImgOption.withQuality Quality.low, ImgOption.withFormat Format.jpeg] ∈
    (createPreview env0 file0 PreviewSize.thumb true true).2 :=
  ((c7_theorem env0 file0 PreviewSize.thumb true true).2 rfl).2 rfl rfl

/-- Claim C8: previewCacheKey is a pure deterministic function of exactly
the triple (path, modTimeUnixSeconds, previewSize): identical triples give
an identical key on any two evaluations. -/
theorem c8_theorem (p1 p2 : String) (t1 t2 : Int) (s1 s2 : PreviewSize)
    (hp : p1 = p2) (ht : t1 = t2) (hs : s1 = s2) :
    previewCacheKey p1 t1 s1 = previewCacheKey p2 t2 s2 := by
  rw [hp, ht, hs]

/-- Claim C8 witness: determinism at a concrete triple. -/
theorem c8_witness :
    previewCacheKey "/a.png" 100 PreviewSize.thumb =
      previewCacheKey "/a.png" 100 PreviewSize.thumb :=
  c8_theorem "/a.png" "/a.png" 100 100 PreviewSize.thumb PreviewSize.thumb rfl rfl rfl

/-- Claim C9: once the source file has been opened successfully, every exit
path of createPreview — disabled flag, Resize failure, success — closes the
content reader last, before the function returns. -/
theorem c9_theorem (env : Env) (file : FileInfo) (ps : PreviewSize) (et rp : Bool)
    (hopen : env.openResult = none) :
    (createPreview env file ps et rp).2.getLast? = some Event.fsClose := by
  by_cases hbig : (ps == PreviewSize.big && rp) = true
  · cases hres : env.resizeResult <;> simp [createPreview, hopen, hbig, hres]
  · by_cases hthumb : (ps == PreviewSize.thumb && et) = true
    · rw [Bool.not_eq_true] at hbig
      cases hres : env.resizeResult <;> simp [createPreview, hopen, hbig, hthumb, hres]
    · rw [Bool.not_eq_true] at hbig hthumb
      simp [createPreview, hopen, hbig, hthumb]

/-- Claim C9 witness: the concrete successful render closes the reader
last. -/
theorem c9_witness :
    (createPreview env0 file0 PreviewSize.thumb true true).2.getLast? =
      some Event.fsClose :=
  c9_theorem env0 file0 PreviewSize.thumb true true rfl

/-- Claim C10: previewCacheKey is not injective — the byte-string
consisting of 0x02 0x34 with mod-time 5 and the byte-string 0x02 with
mod-time 0x345 (= 837) are distinct inputs of the same size class that
produce the identical key, because the unpadded hex pieces concatenate to
the same string 02345 followed by the size tag. -/
theorem c10_theorem :
    previewCacheKey (String.mk [Char.ofNat 2, Char.ofNat 52]) 5 PreviewSize.thumb =
      previewCacheKey (String.mk [Char.ofNat 2]) 837 PreviewSize.thumb ∧
    (String.mk [Char.ofNat 2, Char.ofNat 52], (5 : Int)) ≠
      (String.mk [Char.ofNat 2], (837 : Int)) := by
  decide
